import Mathlib

/-!
Verification of the attendance + dashboard core of the Sutra HRMS repository.

The repository ships the frontend (API clients in `attendanceApi`/`dashboardApi`,
pages, formatters); the backend attendance service, dashboard aggregator and
cache facade are reachable only through the HTTP client, so those components are
modelled here from the specification (each such definition is marked
"Modelled from the spec:").  Frontend functions (`handleApplyFilters`,
`formatDate`, `formatPercentage`) are embedded directly from their source.
-/

namespace HRMS

/-! ## Data model -/

/-- Attendance status, spec §3: status ∈ \x7bPresent, Absent, Half Day, Leave\x7d. -/
inductive AttendanceStatus where
  | present
  | absent
  | halfDay
  | leave
deriving DecidableEq, Repr

/-- Employee record, spec §3 (fields relevant to the attendance core). -/
structure Employee where
  employee_id : String
  full_name : String
  email : String
  department : String
deriving DecidableEq, Repr

/-- Attendance record, spec §3: system-generated id, foreign `employee_id`,
calendar `date` (modelled as a day number, no time component), status,
optional notes, `created_at` timestamp. -/
structure AttendanceRecord where
  id : Nat
  employee_id : String
  date : Nat
  status : AttendanceStatus
  notes : Option String
  created_at : Nat
deriving DecidableEq, Repr

/-- Error kinds, spec §7. -/
inductive ApiError where
  | validationError
  | notFoundError
  | duplicateError
  | unavailableError
deriving DecidableEq, Repr

/-- State of the attendance core: the employee directory, the attendance
store, the id counter for system-generated record ids, and the current UTC
calendar day. -/
structure ServiceState where
  employees : List Employee
  records : List AttendanceRecord
  nextId : Nat
  today : Nat
deriving DecidableEq, Repr

/-- Modelled from the spec: `employeeExists(employee_id) -> bool` of the
Employee Directory Interface (§6). -/
def employeeExists (s : ServiceState) (eid : String) : Bool :=
  s.employees.any (fun e => e.employee_id == eid)

/-- Whether a record for the pair (employee_id, date) already exists
(the compound uniqueness key of §3/§6). -/
def hasRecordFor (s : ServiceState) (eid : String) (d : Nat) : Bool :=
  s.records.any (fun r => r.employee_id == eid && r.date == d)

/-! ## Attendance service operations (spec §4.1) -/

/-- Modelled from the spec: `markAttendance(employee_id, date, status, notes?)`
(§4.1): the backend attendance service is not in the repository sources, only
its client `attendanceApi.markAttendance`.  Validates that `date` is not in
the future relative to UTC today (`ValidationError`), that the employee exists
(`NotFoundError`) and that no record for (employee_id, date) exists
(`DuplicateError`); otherwise creates the record.  A failed call returns the
state unchanged. -/
def markAttendance (s : ServiceState) (eid : String) (d : Nat)
    (st : AttendanceStatus) (notes : Option String) :
    Except ApiError AttendanceRecord × ServiceState :=
  if s.today < d then
    (.error .validationError, s)
  else if !(employeeExists s eid) then
    (.error .notFoundError, s)
  else if hasRecordFor s eid d then
    (.error .duplicateError, s)
  else
    let r : AttendanceRecord :=
      { id := s.nextId, employee_id := eid, date := d, status := st,
        notes := notes, created_at := s.today }
    (.ok r, { s with records := r :: s.records, nextId := s.nextId + 1 })

/-- Filters accepted by `listAttendance`, mirroring the query parameters of
`attendanceApi.getAttendance`. -/
structure AttendanceFilter where
  employee_id : Option String := none
  date : Option Nat := none
  start_date : Option Nat := none
  end_date : Option Nat := none
  status : Option AttendanceStatus := none
deriving DecidableEq, Repr

/-- Modelled from the spec: a record matches when every supplied filter
matches (AND semantics, §4.1): `employee_id` and `date` and `status` exact,
`start_date`/`end_date` an inclusive range. -/
def matchesFilter (f : AttendanceFilter) (r : AttendanceRecord) : Bool :=
  (match f.employee_id with | none => true | some e => r.employee_id == e) &&
  (match f.date with | none => true | some d => r.date == d) &&
  (match f.start_date with | none => true | some d => d ≤ r.date) &&
  (match f.end_date with | none => true | some d => r.date ≤ d) &&
  (match f.status with | none => true | some st => r.status == st)

/-- Result ordering of `listAttendance` (§4.1): date descending, ties broken
by employee_id ascending. -/
def recordLe (a b : AttendanceRecord) : Bool :=
  b.date < a.date || (a.date == b.date && a.employee_id ≤ b.employee_id)

/-- Insertion step of the sort used by `listAttendance`. -/
def insertBy {α : Type} (le : α → α → Bool) (a : α) : List α → List α
  | [] => [a]
  | b :: l => if le a b then a :: b :: l else b :: insertBy le a l

/-- Insertion sort with boolean comparator. -/
def sortBy {α : Type} (le : α → α → Bool) : List α → List α
  | [] => []
  | a :: l => insertBy le a (sortBy le l)

/-- Modelled from the spec: `listAttendance(filters)` (§4.1): records matching
all supplied filters, ordered by date descending with ties broken by
employee_id ascending. -/
def listAttendance (s : ServiceState) (f : AttendanceFilter) :
    List AttendanceRecord :=
  sortBy recordLe (s.records.filter (matchesFilter f))

/-- Update payload of `updateAttendance`, mirroring the source interface
`AttendanceUpdate` (status?, notes?). -/
structure AttendanceUpdate where
  status : Option AttendanceStatus := none
  notes : Option String := none
deriving DecidableEq, Repr

/-- Applying an update patch to a record touches only the supplied fields. -/
def applyUpdate (u : AttendanceUpdate) (r : AttendanceRecord) :
    AttendanceRecord :=
  { r with
    status := match u.status with | none => r.status | some st => st
    notes := match u.notes with | none => r.notes | some n => some n }

/-- Modelled from the spec: `updateAttendance(record_id, \x7bstatus?, notes?\x7d)`
(§4.1): `NotFoundError` if the id is unknown, otherwise updates only the
supplied fields. -/
def updateAttendance (s : ServiceState) (rid : Nat) (u : AttendanceUpdate) :
    Except ApiError AttendanceRecord × ServiceState :=
  match s.records.find? (fun r => r.id == rid) with
  | none => (.error .notFoundError, s)
  | some r =>
    (.ok (applyUpdate u r),
     { s with records :=
        s.records.map (fun x => if x.id == rid then applyUpdate u x else x) })

/-- Modelled from the spec: `deleteAttendance(record_id)` (§4.1):
`NotFoundError` if unknown, otherwise removes the record. -/
def deleteAttendance (s : ServiceState) (rid : Nat) :
    Except ApiError Unit × ServiceState :=
  if s.records.any (fun r => r.id == rid) then
    (.ok (), { s with records := s.records.filter (fun r => !(r.id == rid)) })
  else
    (.error .notFoundError, s)

/-- Modelled from the spec: `deleteAllForEmployee(employee_id)` (§4.1), the
cascade hook: deletes every attendance record of that employee and never
fails. -/
def deleteAllForEmployee (s : ServiceState) (eid : String) : ServiceState :=
  { s with records := s.records.filter (fun r => !(r.employee_id == eid)) }

/-- Modelled from the spec: adding an employee to the directory (§3). -/
def addEmployee (s : ServiceState) (e : Employee) : ServiceState :=
  { s with employees := e :: s.employees }

/-- Modelled from the spec: deleting an employee cascades deletion of that
employee's attendance records (§3, §4.1): the directory removes the employee
and invokes `deleteAllForEmployee`. -/
def removeEmployee (s : ServiceState) (eid : String) : ServiceState :=
  deleteAllForEmployee
    { s with employees := s.employees.filter (fun e => !(e.employee_id == eid)) }
    eid

/-! ## Dashboard aggregator (spec §4.2) -/

/-- Dashboard summary, from the source interface `DashboardSummary`
(`total_employees`, `present_today`, `absent_today`, `department_counts`).
Department counts are a finite map modelled as an association list. -/
structure DashboardSummary where
  total_employees : Nat
  present_today : Nat
  absent_today : Nat
  department_counts : List (String × Nat)
deriving DecidableEq, Repr

/-- Modelled from the spec: `department_counts` = employees grouped by
department, only departments with at least one employee appear (§4.2). -/
def departmentCounts (s : ServiceState) : List (String × Nat) :=
  ((s.employees.map Employee.department).dedup).map
    (fun d => (d, s.employees.countP (fun e => e.department == d)))

/-- Modelled from the spec: `getSummary()` (§4.2): `total_employees` = count of
all employees; `present_today`/`absent_today` = count of attendance records
dated today (UTC) with status Present / Absent respectively — Half Day and
Leave are excluded from both counts. -/
def getSummary (s : ServiceState) : DashboardSummary :=
  { total_employees := s.employees.length
    present_today :=
      (s.records.filter
        (fun r => r.date == s.today && r.status == .present)).length
    absent_today :=
      (s.records.filter
        (fun r => r.date == s.today && r.status == .absent)).length
    department_counts := departmentCounts s }

/-- Per-employee attendance summary, from the source interface
`EmployeeAttendanceSummary`.  `attendance_percentage` is a real-valued
quantity, modelled as ℚ. -/
structure EmployeeAttendanceSummary where
  employee_id : String
  full_name : String
  department : String
  present_days : Nat
  absent_days : Nat
  total_days : Nat
  attendance_percentage : ℚ
deriving DecidableEq, Repr

/-- Modelled from the spec: the summary row computed for one employee (§3):
`total_days` counts all recorded rows for that employee, and
`attendance_percentage` = present_days / total_days × 100, 0 when
total_days = 0. -/
def summaryFor (s : ServiceState) (e : Employee) : EmployeeAttendanceSummary :=
  let recs := s.records.filter (fun r => r.employee_id == e.employee_id)
  let p := (recs.filter (fun r => r.status == .present)).length
  let a := (recs.filter (fun r => r.status == .absent)).length
  { employee_id := e.employee_id
    full_name := e.full_name
    department := e.department
    present_days := p
    absent_days := a
    total_days := recs.length
    attendance_percentage :=
      if recs.length == 0 then 0 else (p : ℚ) / (recs.length : ℚ) * 100 }

/-- Ordering of the attendance summary (§4.2): employee_id ascending. -/
def summaryLe (a b : EmployeeAttendanceSummary) : Bool :=
  a.employee_id ≤ b.employee_id

/-- Modelled from the spec: `getAttendanceSummary()` (§4.2): one row per
employee that has at least one attendance record (employees with zero records
are omitted), sorted by employee_id ascending. -/
def getAttendanceSummary (s : ServiceState) : List EmployeeAttendanceSummary :=
  sortBy summaryLe
    ((s.employees.filter
        (fun e => s.records.any (fun r => r.employee_id == e.employee_id))).map
      (summaryFor s))

/-! ## Cache facade (spec §4.3) -/

/-- Failure of the cache backend. -/
inductive CacheFailure where
  | unavailable
deriving DecidableEq, Repr

/-- A cache backend: `get` may hit (`some`), miss (`none`) or fail; `set`
stores a value with a TTL and may fail. -/
structure CacheBackend (V : Type) where
  get : String → Except CacheFailure (Option V)
  set : String → V → Nat → Except CacheFailure Unit

/-- Modelled from the spec: `getOrCompute(key, ttl_seconds, computeFn)`
(§4.3): returns the cached value on a hit; otherwise computes, best-effort
stores (a failing `set` is ignored), and returns the computed value; a failing
`get` falls back to direct computation (fail-open). -/
def getOrCompute {V : Type} (b : CacheBackend V) (key : String) (ttl : Nat)
    (compute : Unit → V) : V :=
  match b.get key with
  | .ok (some v) => v
  | .ok none =>
    let v := compute ()
    match b.set key v ttl with
    | .ok _ => v
    | .error _ => v
  | .error _ => compute ()

/-- A cache backend that always fails (backend outage). -/
def unavailableBackend (V : Type) : CacheBackend V :=
  { get := fun _ => .error .unavailable
    set := fun _ _ _ => .error .unavailable }

/-- Modelled from the spec: `getSummary()` read through the cache facade with
the dashboard namespace and TTL 30s (§4.2/§4.3). -/
def cachedGetSummary (b : CacheBackend DashboardSummary) (s : ServiceState) :
    DashboardSummary :=
  getOrCompute b "dashboard:summary" 30 (fun _ => getSummary s)

/-! ## Frontend: `handleApplyFilters` (src/frontend/src/pages/AttendancePage.tsx) -/

/-- The filter state of `AttendancePage`: four string fields, each initially
empty. -/
structure PageFilters where
  employee_id : String
  status : String
  start_date : String
  end_date : String
deriving DecidableEq, Repr

/-- Embedded from `handleApplyFilters` in AttendancePage.tsx: builds the query
parameter object sent to the attendance list endpoint.  `employee_id` and
`status` are added when truthy (non-empty) and different from the sentinel
string "all"; `start_date` and `end_date` are added when truthy
(non-empty). -/
def handleApplyFilters (f : PageFilters) : List (String × String) :=
  (if f.employee_id ≠ "" ∧ f.employee_id ≠ "all" then
    [("employee_id", f.employee_id)] else []) ++
  (if f.status ≠ "" ∧ f.status ≠ "all" then
    [("status", f.status)] else []) ++
  (if f.start_date ≠ "" then [("start_date", f.start_date)] else []) ++
  (if f.end_date ≠ "" then [("end_date", f.end_date)] else [])

/-- Whether `handleApplyFilters` sends a query parameter named `k`. -/
def sendsParam (f : PageFilters) (k : String) : Bool :=
  (handleApplyFilters f).any (fun p => p.1 == k)

/-- The condition claimed for every query parameter: its value is non-empty
and not the sentinel "all". -/
def claimedParamCond (v : String) : Bool :=
  !(v == "") && !(v == "all")

/-! ## Frontend: `formatDate` and `formatPercentage`
(src/frontend/src/utils/formatters.ts) -/

/-- The date object computed on the first line of `formatDate`: a string input
goes through `parseISO`, a `Date` input is used as is.  A date object is
`Option Int` — `none` is an invalid date (`isValid` false), `some t` a valid
one with time value `t`. -/
def dateObjOf (parseISO : String → Option Int)
    (input : String ⊕ Option Int) : Option Int :=
  match input with
  | .inl s => parseISO s
  | .inr d => d

/-- Embedded from `formatDate` in formatters.ts, with the date-fns library
abstracted: `parseISO` yields a possibly invalid date object and `format` may
raise (`Except.error`).  The body parses, checks `isValid`, formats; the
surrounding try/catch turns any raised error into "Invalid date". -/
def formatDate (parseISO : String → Option Int)
    (format : Int → String → Except String String)
    (input : String ⊕ Option Int) (fmtStr : String) : String :=
  match dateObjOf parseISO input with
  | none => "Invalid date"
  | some t =>
    match format t fmtStr with
    | .ok out => out
    | .error _ => "Invalid date"

/-- Rounding to one decimal place, modelling `Number.prototype.toFixed(1)` on
values exactly representable at this precision (round half away from zero for
nonnegative values). -/
def toFixed1 (q : ℚ) : String :=
  let n : ℤ := ⌊q * 10 + 1 / 2⌋
  toString (n / 10) ++ "." ++ toString (n % 10).natAbs

/-- Embedded from `formatPercentage` in formatters.ts:
`value.toFixed(1) + percent sign`. -/
def formatPercentage (value : ℚ) : String :=
  toFixed1 value ++ "%"

/-! ## Reachability (for the referential-integrity invariant) -/

/-- One mutation of the attendance core: any of the service operations, an
employee creation, or an employee deletion with its cascade. -/
inductive Step : ServiceState → ServiceState → Prop where
  | add (s : ServiceState) (e : Employee) : Step s (addEmployee s e)
  | mark (s : ServiceState) (eid : String) (d : Nat) (st : AttendanceStatus)
      (notes : Option String) : Step s (markAttendance s eid d st notes).2
  | update (s : ServiceState) (rid : Nat) (u : AttendanceUpdate) :
      Step s (updateAttendance s rid u).2
  | deleteRec (s : ServiceState) (rid : Nat) :
      Step s (deleteAttendance s rid).2
  | removeEmp (s : ServiceState) (eid : String) :
      Step s (removeEmployee s eid)

/-- The empty initial state. -/
def initState : ServiceState :=
  { employees := [], records := [], nextId := 0, today := 0 }

/-- States reachable from the initial state by service operations. -/
def Reachable (s : ServiceState) : Prop :=
  Relation.ReflTransGen Step initState s

/-- Referential integrity: every attendance record references an existing
employee. -/
def RefIntegrity (s : ServiceState) : Prop :=
  ∀ r ∈ s.records, employeeExists s r.employee_id = true

/-! ## Concrete demonstration states -/

/-- A demonstration employee. -/
def demoEmp : Employee :=
  { employee_id := "EMP-001", full_name := "Asha Rao",
    email := "asha@example.com", department := "Engineering" }

/-- A state with one employee and no records, day 100. -/
def demoState : ServiceState :=
  { employees := [demoEmp], records := [], nextId := 0, today := 100 }

/-- The first attendance record of the four-record demonstration state. -/
def demoRecord0 : AttendanceRecord :=
  { id := 0, employee_id := "EMP-001", date := 96, status := .present,
    notes := none, created_at := 96 }

/-- A state where EMP-001 has 3 Present records and 1 Absent record. -/
def demoState4 : ServiceState :=
  { employees := [demoEmp]
    records :=
      [ demoRecord0,
        { id := 1, employee_id := "EMP-001", date := 97, status := .present,
          notes := none, created_at := 97 },
        { id := 2, employee_id := "EMP-001", date := 98, status := .present,
          notes := none, created_at := 98 },
        { id := 3, employee_id := "EMP-001", date := 99, status := .absent,
          notes := none, created_at := 99 } ]
    nextId := 4, today := 100 }

/-! ## Sorting lemmas -/

lemma mem_insertBy {α : Type} (le : α → α → Bool) (a b : α) (l : List α) :
    b ∈ insertBy le a l ↔ b = a ∨ b ∈ l := by
  induction l with
  | nil => simp [insertBy]
  | cons x xs ih =>
    simp only [insertBy]
    split
    · simp
    · simp only [List.mem_cons, ih]
      tauto

lemma mem_sortBy {α : Type} (le : α → α → Bool) (b : α) (l : List α) :
    b ∈ sortBy le l ↔ b ∈ l := by
  induction l with
  | nil => simp [sortBy]
  | cons x xs ih => simp [sortBy, mem_insertBy, ih]

lemma pairwise_insertBy {α : Type} {le : α → α → Bool}
    (htotal : ∀ x y, le x y = true ∨ le y x = true)
    (htrans : ∀ x y z, le x y = true → le y z = true → le x z = true)
    (a : α) (l : List α) (h : l.Pairwise (fun x y => le x y = true)) :
    (insertBy le a l).Pairwise (fun x y => le x y = true) := by
  induction l with
  | nil => simp [insertBy]
  | cons x xs ih =>
    rcases List.pairwise_cons.mp h with ⟨hx, hxs⟩
    simp only [insertBy]
    split
    · next hax =>
      refine List.pairwise_cons.mpr ⟨?_, h⟩
      intro y hy
      rcases List.mem_cons.mp hy with rfl | hy
      · exact hax
      · exact htrans a x y hax (hx y hy)
    · next hax =>
      have hxa : le x a = true := (htotal a x).resolve_left hax
      refine List.pairwise_cons.mpr ⟨?_, ih hxs⟩
      intro y hy
      rcases (mem_insertBy le a y xs).mp hy with rfl | hy
      · exact hxa
      · exact hx y hy

lemma pairwise_sortBy {α : Type} {le : α → α → Bool}
    (htotal : ∀ x y, le x y = true ∨ le y x = true)
    (htrans : ∀ x y z, le x y = true → le y z = true → le x z = true)
    (l : List α) :
    (sortBy le l).Pairwise (fun x y => le x y = true) := by
  induction l with
  | nil => simp [sortBy]
  | cons x xs ih => exact pairwise_insertBy htotal htrans x _ ih

lemma recordLe_total (a b : AttendanceRecord) :
    recordLe a b = true ∨ recordLe b a = true := by
  simp only [recordLe, Bool.or_eq_true, Bool.and_eq_true, beq_iff_eq,
    decide_eq_true_eq]
  rcases lt_trichotomy a.date b.date with h | h | h
  · right; left; exact h
  · rcases le_total a.employee_id b.employee_id with h2 | h2
    · left; right; exact ⟨h, h2⟩
    · right; right; exact ⟨h.symm, h2⟩
  · left; left; exact h

lemma recordLe_trans (a b c : AttendanceRecord) :
    recordLe a b = true → recordLe b c = true → recordLe a c = true := by
  simp only [recordLe, Bool.or_eq_true, Bool.and_eq_true, beq_iff_eq,
    decide_eq_true_eq]
  rintro (h1 | ⟨h1, h1s⟩) (h2 | ⟨h2, h2s⟩)
  · left; omega
  · left; omega
  · left; omega
  · right; exact ⟨h1.trans h2, h1s.trans h2s⟩

lemma summaryLe_total (a b : EmployeeAttendanceSummary) :
    summaryLe a b = true ∨ summaryLe b a = true := by
  simp only [summaryLe, decide_eq_true_eq]
  exact le_total a.employee_id b.employee_id

lemma matchesFilter_iff (f : AttendanceFilter) (r : AttendanceRecord) :
    matchesFilter f r = true ↔
      ((∀ e, f.employee_id = some e → r.employee_id = e) ∧
       (∀ d, f.date = some d → r.date = d) ∧
       (∀ d, f.start_date = some d → d ≤ r.date) ∧
       (∀ d, f.end_date = some d → r.date ≤ d) ∧
       (∀ st, f.status = some st → r.status = st)) := by
  obtain ⟨fe, fd, fs, fen, fst⟩ := f
  cases fe <;> cases fd <;> cases fs <;> cases fen <;> cases fst <;>
    simp [matchesFilter, and_assoc]

/-! ## Claim theorems -/

/-- Claim C5: for every call of `markAttendance` whose date is strictly after
today's UTC date, the call fails with `ValidationError` and no record is
created (the state is returned unchanged). -/
theorem markAttendance_future_date_rejected (s : ServiceState) (eid : String)
    (d : Nat) (st : AttendanceStatus) (n : Option String)
    (h : s.today < d) :
    markAttendance s eid d st n = (.error .validationError, s) := by
  simp [markAttendance, h]

/-- Witness for C5: marking attendance on day 101 when today is day 100 fails
with `ValidationError` and leaves the state unchanged. -/
theorem markAttendance_future_date_rejected_witness :
    markAttendance demoState "EMP-001" 101 .present none =
      (.error .validationError, demoState) :=
  markAttendance_future_date_rejected demoState "EMP-001" 101 .present none
    (by decide)

/-- Claim C1: for every employee and date (employee existing, date not in the
future, no prior record), the first `markAttendance` call succeeds and creates
exactly one attendance record, and a second call with the same
(employee, date) pair fails with `DuplicateError`, leaving the store unchanged
by the failed call. -/
theorem markAttendance_twice_duplicate (s : ServiceState) (eid : String)
    (d : Nat) (st st₂ : AttendanceStatus) (n n₂ : Option String)
    (hemp : employeeExists s eid = true) (hdate : d ≤ s.today)
    (hdup : hasRecordFor s eid d = false) :
    ∃ r s₁, markAttendance s eid d st n = (.ok r, s₁) ∧
      s₁.records = r :: s.records ∧
      markAttendance s₁ eid d st₂ n₂ = (.error .duplicateError, s₁) := by
  have hnotlt : ¬ s.today < d := by omega
  refine ⟨{ id := s.nextId, employee_id := eid, date := d, status := st,
            notes := n, created_at := s.today },
          { s with
            records :=
              { id := s.nextId, employee_id := eid, date := d, status := st,
                notes := n, created_at := s.today } :: s.records,
            nextId := s.nextId + 1 },
          ?_, rfl, ?_⟩
  · simp [markAttendance, hnotlt, hemp, hdup]
  · have hexists :
      employeeExists { s with
        records :=
          { id := s.nextId, employee_id := eid, date := d, status := st,
            notes := n, created_at := s.today } :: s.records,
        nextId := s.nextId + 1 } eid = true := hemp
    have hdup₂ :
      hasRecordFor { s with
        records :=
          { id := s.nextId, employee_id := eid, date := d, status := st,
            notes := n, created_at := s.today } :: s.records,
        nextId := s.nextId + 1 } eid d = true := by
      simp [hasRecordFor]
    simp [markAttendance, hnotlt, hexists, hdup₂]

/-- Witness for C1: on the demonstration state, marking EMP-001 on day 99
succeeds and marking the same pair again fails with `DuplicateError`. -/
theorem markAttendance_twice_duplicate_witness :
    ∃ r s₁, markAttendance demoState "EMP-001" 99 .present none = (.ok r, s₁) ∧
      s₁.records = r :: demoState.records ∧
      markAttendance s₁ "EMP-001" 99 .absent none =
        (.error .duplicateError, s₁) :=
  markAttendance_twice_duplicate demoState "EMP-001" 99 .present .absent
    none none (by decide) (by decide) (by decide)

/-- Claim C7: a successful `updateAttendance(record_id, patch)` changes only
the supplied fields among status and notes; the record's `employee_id`,
`date` and `created_at` (and id) are unchanged, and every record in the store
other than `record_id` is untouched. -/
theorem updateAttendance_frame (s : ServiceState) (rid : Nat)
    (u : AttendanceUpdate) (r₂ : AttendanceRecord)
    (h : (updateAttendance s rid u).1 = .ok r₂) :
    ∃ r, s.records.find? (fun x => x.id == rid) = some r ∧
      r₂.employee_id = r.employee_id ∧ r₂.date = r.date ∧
      r₂.created_at = r.created_at ∧ r₂.id = r.id ∧
      (u.status = none → r₂.status = r.status) ∧
      (∀ st, u.status = some st → r₂.status = st) ∧
      (u.notes = none → r₂.notes = r.notes) ∧
      (∀ n, u.notes = some n → r₂.notes = some n) ∧
      (updateAttendance s rid u).2.records =
        s.records.map (fun x => if x.id == rid then applyUpdate u x else x) := by
  cases hfind : s.records.find? (fun x => x.id == rid) with
  | none => simp [updateAttendance, hfind] at h
  | some r =>
    simp only [updateAttendance, hfind, Except.ok.injEq] at h
    refine ⟨r, rfl, ?_, ?_, ?_, ?_, ?_, ?_, ?_, ?_, ?_⟩
    · rw [← h]; rfl
    · rw [← h]; rfl
    · rw [← h]; rfl
    · rw [← h]; rfl
    · intro hst; rw [← h]; simp [applyUpdate, hst]
    · intro st hst; rw [← h]; simp [applyUpdate, hst]
    · intro hn; rw [← h]; simp [applyUpdate, hn]
    · intro n hn; rw [← h]; simp [applyUpdate, hn]
    · simp [updateAttendance, hfind]

/-- Witness for C7: updating record 0 of the demonstration state to Absent
keeps its employee_id, date and created_at. -/
theorem updateAttendance_frame_witness :
    ∃ r, demoState4.records.find? (fun x => x.id == 0) = some r ∧
      (applyUpdate { status := some .absent } demoRecord0).employee_id =
        r.employee_id ∧
      (applyUpdate { status := some .absent } demoRecord0).date = r.date ∧
      (applyUpdate { status := some .absent } demoRecord0).created_at =
        r.created_at ∧
      (applyUpdate { status := some .absent } demoRecord0).id = r.id ∧
      (({ status := some .absent } : AttendanceUpdate).status = none →
        (applyUpdate { status := some .absent } demoRecord0).status =
          r.status) ∧
      (∀ st, ({ status := some .absent } : AttendanceUpdate).status = some st →
        (applyUpdate { status := some .absent } demoRecord0).status = st) ∧
      (({ status := some .absent } : AttendanceUpdate).notes = none →
        (applyUpdate { status := some .absent } demoRecord0).notes =
          r.notes) ∧
      (∀ n, ({ status := some .absent } : AttendanceUpdate).notes = some n →
        (applyUpdate { status := some .absent } demoRecord0).notes =
          some n) ∧
      (updateAttendance demoState4 0 { status := some .absent }).2.records =
        demoState4.records.map
          (fun x => if x.id == 0 then applyUpdate { status := some .absent } x
            else x) :=
  updateAttendance_frame demoState4 0 { status := some .absent }
    (applyUpdate { status := some .absent } demoRecord0) (by rfl)

/-- Claim C8: the cache facade is fail-open — when the backend `get` fails,
`getOrCompute` returns the directly computed result, and `getSummary` read
through an unavailable cache equals the directly computed summary. -/
theorem cache_fail_open :
    (∀ (V : Type) (b : CacheBackend V) (key : String) (ttl : Nat)
        (f : Unit → V) (e : CacheFailure),
      b.get key = .error e → getOrCompute b key ttl f = f ()) ∧
    (∀ s : ServiceState,
      cachedGetSummary (unavailableBackend DashboardSummary) s =
        getSummary s) := by
  constructor
  · intro V b key ttl f e hget
    simp [getOrCompute, hget]
  · intro s
    rfl

/-- Witness for C8: computing through an always-failing backend returns the
computed value. -/
theorem cache_fail_open_witness :
    getOrCompute (unavailableBackend Nat) "k" 30 (fun _ => 7) = 7 :=
  cache_fail_open.1 Nat (unavailableBackend Nat) "k" 30 (fun _ => 7)
    .unavailable rfl

/-- The concrete filter state refuting claim C9: all fields empty except
`start_date`, which holds the sentinel string "all". -/
def badFilters : PageFilters :=
  { employee_id := "", status := "", start_date := "all", end_date := "" }

/-- Counterexample to claim C9 as stated: at the filter state where
`start_date` is the string "all", `handleApplyFilters` does send the
`start_date` query parameter although its value is the sentinel "all" — the
date fields are only checked for truthiness, not against the sentinel. -/
theorem handleApplyFilters_sentinel_counterexample :
    ¬ (sendsParam badFilters "employee_id" =
        claimedParamCond badFilters.employee_id ∧
       sendsParam badFilters "status" = claimedParamCond badFilters.status ∧
       sendsParam badFilters "start_date" =
        claimedParamCond badFilters.start_date ∧
       sendsParam badFilters "end_date" =
        claimedParamCond badFilters.end_date) := by
  decide

/-- Claim C9 (amended): `handleApplyFilters` sends `employee_id` and `status`
iff their values are non-empty and not the sentinel "all", and sends
`start_date` and `end_date` iff their values are non-empty; selecting
"All Employees" and "All Statuses" with empty date fields requests the fully
unfiltered record list. -/
theorem handleApplyFilters_params (f : PageFilters) :
    sendsParam f "employee_id" = claimedParamCond f.employee_id ∧
    sendsParam f "status" = claimedParamCond f.status ∧
    sendsParam f "start_date" = !(f.start_date == "") ∧
    sendsParam f "end_date" = !(f.end_date == "") ∧
    handleApplyFilters
      { employee_id := "all", status := "all", start_date := "",
        end_date := "" } = [] := by
  refine ⟨?_, ?_, ?_, ?_, by decide⟩ <;>
    simp only [sendsParam, handleApplyFilters, List.any_append,
      claimedParamCond] <;>
    split_ifs <;>
    simp_all [Bool.or_eq_true, List.any_cons, List.any_nil]

/-- Claim C10: `formatDate` is total — every call returns either the formatted
output or the literal string "Invalid date" (no exception escapes); every
input that does not yield a valid date object returns "Invalid date", and a
raising `format` is caught and also yields "Invalid date". -/
theorem formatDate_total (p : String → Option Int)
    (fmt : Int → String → Except String String)
    (input : String ⊕ Option Int) (fstr : String) :
    (formatDate p fmt input fstr = "Invalid date" ∨
      ∃ t out, dateObjOf p input = some t ∧ fmt t fstr = .ok out ∧
        formatDate p fmt input fstr = out) ∧
    (dateObjOf p input = none →
      formatDate p fmt input fstr = "Invalid date") ∧
    (∀ t e, dateObjOf p input = some t → fmt t fstr = .error e →
      formatDate p fmt input fstr = "Invalid date") := by
  refine ⟨?_, ?_, ?_⟩
  · cases h : dateObjOf p input with
    | none => left; simp [formatDate, h]
    | some t =>
      cases hf : fmt t fstr with
      | ok out => right; exact ⟨t, out, rfl, hf, by simp [formatDate, h, hf]⟩
      | error e => left; simp [formatDate, h, hf]
  · intro h; simp [formatDate, h]
  · intro t e h hf; simp [formatDate, h, hf]

/-- Witness for C10: an input string that fails to parse yields
"Invalid date". -/
theorem formatDate_total_witness :
    formatDate (fun _ => none) (fun _ _ => .ok "x") (.inl "not-a-date")
      "MMM d, yyyy" = "Invalid date" :=
  (formatDate_total (fun _ => none) (fun _ _ => .ok "x") (.inl "not-a-date")
    "MMM d, yyyy").2.1 rfl

/-- Claim C6: for every filter combination, `listAttendance` returns exactly
the records matching all supplied filters (AND semantics: employee_id exact,
date exact, start_date/end_date inclusive range, status exact), ordered by
date descending with ties broken by employee_id ascending. -/
theorem listAttendance_filter_sort (s : ServiceState) (f : AttendanceFilter) :
    (∀ r, r ∈ listAttendance s f ↔
      (r ∈ s.records ∧
       (∀ e, f.employee_id = some e → r.employee_id = e) ∧
       (∀ d, f.date = some d → r.date = d) ∧
       (∀ d, f.start_date = some d → d ≤ r.date) ∧
       (∀ d, f.end_date = some d → r.date ≤ d) ∧
       (∀ st, f.status = some st → r.status = st))) ∧
    (listAttendance s f).Pairwise (fun a b => recordLe a b = true) := by
  constructor
  · intro r
    rw [listAttendance, mem_sortBy, List.mem_filter, matchesFilter_iff]
  · exact pairwise_sortBy recordLe_total recordLe_trans _

/-- Witness for C6: the first demonstration record is listed under the
EMP-001 filter and satisfies the filter semantics. -/
theorem listAttendance_filter_sort_witness :
    demoRecord0 ∈ demoState4.records ∧
    (∀ e, ({ employee_id := some "EMP-001" } :
        AttendanceFilter).employee_id = some e →
      demoRecord0.employee_id = e) ∧
    (∀ d, ({ employee_id := some "EMP-001" } : AttendanceFilter).date =
        some d → demoRecord0.date = d) ∧
    (∀ d, ({ employee_id := some "EMP-001" } : AttendanceFilter).start_date =
        some d → d ≤ demoRecord0.date) ∧
    (∀ d, ({ employee_id := some "EMP-001" } : AttendanceFilter).end_date =
        some d → demoRecord0.date ≤ d) ∧
    (∀ st, ({ employee_id := some "EMP-001" } : AttendanceFilter).status =
        some st → demoRecord0.status = st) :=
  ((listAttendance_filter_sort demoState4
      { employee_id := some "EMP-001" }).1 demoRecord0).mp (by decide)

/-- A Half Day record dated on the demonstration state's today. -/
def demoHalfDayRecord : AttendanceRecord :=
  { id := 9, employee_id := "EMP-001", date := 100, status := .halfDay,
    notes := none, created_at := 100 }

/-- Claim C3: `getSummary` reports `present_today`/`absent_today` as the count
of attendance records dated today (UTC) with status exactly Present,
respectively exactly Absent, and a record with status Half Day or Leave
contributes to neither count. -/
theorem getSummary_today_counts (s : ServiceState) :
    (getSummary s).present_today =
      s.records.countP
        (fun r => r.date == s.today && r.status == .present) ∧
    (getSummary s).absent_today =
      s.records.countP
        (fun r => r.date == s.today && r.status == .absent) ∧
    (∀ r : AttendanceRecord, r.status = .halfDay ∨ r.status = .leave →
      (getSummary { s with records := r :: s.records }).present_today =
        (getSummary s).present_today ∧
      (getSummary { s with records := r :: s.records }).absent_today =
        (getSummary s).absent_today) := by
  refine ⟨?_, ?_, ?_⟩
  · simp [getSummary, List.countP_eq_length_filter]
  · simp [getSummary, List.countP_eq_length_filter]
  · rintro r (h | h) <;>
      exact ⟨by simp [getSummary, List.filter_cons, h],
             by simp [getSummary, List.filter_cons, h]⟩

/-- Witness for C3: on the demonstration state, the counts match and adding a
Half Day record for today changes neither count. -/
theorem getSummary_today_counts_witness :
    (getSummary demoState4).present_today =
      demoState4.records.countP
        (fun r => r.date == demoState4.today && r.status == .present) ∧
    (getSummary
        { demoState4 with
          records := demoHalfDayRecord :: demoState4.records }).present_today =
      (getSummary demoState4).present_today ∧
    (getSummary
        { demoState4 with
          records := demoHalfDayRecord :: demoState4.records }).absent_today =
      (getSummary demoState4).absent_today :=
  ⟨(getSummary_today_counts demoState4).1,
   ((getSummary_today_counts demoState4).2.2 demoHalfDayRecord
      (Or.inl rfl)).1,
   ((getSummary_today_counts demoState4).2.2 demoHalfDayRecord
      (Or.inl rfl)).2⟩

lemma step_preserves_integrity (s s' : ServiceState) (h : Step s s')
    (hI : RefIntegrity s) : RefIntegrity s' := by
  cases h with
  | add e =>
    intro r hr
    have := hI r hr
    simp only [employeeExists, addEmployee, List.any_cons, Bool.or_eq_true]
    right
    exact this
  | mark eid d st notes =>
    by_cases h1 : s.today < d
    · simpa [markAttendance, h1] using hI
    · cases h2 : employeeExists s eid with
      | false => simpa [markAttendance, h1, h2] using hI
      | true =>
        cases h3 : hasRecordFor s eid d with
        | true => simpa [markAttendance, h1, h2, h3] using hI
        | false =>
          intro r hr
          simp only [markAttendance, h1, h2, h3, if_false, if_true,
            Bool.not_true, Bool.false_eq_true, if_neg, List.mem_cons] at hr ⊢
          rcases hr with rfl | hr
          · exact h2
          · exact hI r hr
  | update rid u =>
    cases hf : s.records.find? (fun r => r.id == rid) with
    | none => simpa [updateAttendance, hf] using hI
    | some r0 =>
      intro r hr
      simp only [updateAttendance, hf, List.mem_map] at hr ⊢
      obtain ⟨y, hy, rfl⟩ := hr
      have hpres :
          (if y.id == rid then applyUpdate u y else y).employee_id =
            y.employee_id := by
        split <;> rfl
      rw [hpres]
      exact hI y hy
  | deleteRec rid =>
    by_cases hd : s.records.any (fun r => r.id == rid)
    · intro r hr
      simp only [deleteAttendance, hd, if_true] at hr ⊢
      exact hI r (List.mem_filter.mp hr).1
    · simpa [deleteAttendance, hd] using hI
  | removeEmp eid =>
    intro r hr
    have hr' := List.mem_filter.mp hr
    have hrne : (!(r.employee_id == eid)) = true := hr'.2
    have hrmem : r ∈ s.records := hr'.1
    have hex := hI r hrmem
    simp only [employeeExists, List.any_eq_true, beq_iff_eq] at hex
    obtain ⟨e, he, heq⟩ := hex
    simp only [employeeExists, removeEmployee, deleteAllForEmployee,
      List.any_eq_true, beq_iff_eq]
    refine ⟨e, List.mem_filter.mpr ⟨he, ?_⟩, heq⟩
    simp only [Bool.not_eq_true', beq_eq_false_iff_ne, ne_eq]
    intro hcon
    rw [heq] at hcon
    simp only [Bool.not_eq_true', beq_eq_false_iff_ne, ne_eq] at hrne
    exact hrne hcon

/-- Claim C4: deleting an employee removes every attendance record of that
employee, so listing with that employee filter afterwards returns the empty
list; and in every reachable state, no attendance record references a
nonexistent employee. -/
theorem employee_delete_cascade_and_integrity :
    (∀ (s : ServiceState) (eid : String),
      listAttendance (removeEmployee s eid)
        { employee_id := some eid } = []) ∧
    (∀ s : ServiceState, Reachable s → RefIntegrity s) := by
  constructor
  · intro s eid
    rw [listAttendance]
    have hfil : (removeEmployee s eid).records.filter
        (matchesFilter { employee_id := some eid }) = [] := by
      rw [List.filter_eq_nil_iff]
      intro r hr
      have hrne : (!(r.employee_id == eid)) = true :=
        (List.mem_filter.mp hr).2
      simp only [Bool.not_eq_true', beq_eq_false_iff_ne, ne_eq] at hrne
      rw [matchesFilter_iff]
      rintro ⟨hemp, -⟩
      exact hrne (hemp eid rfl)
    rw [hfil]
    rfl
  · intro s h
    unfold Reachable at h
    induction h with
    | refl => intro r hr; simp [initState] at hr
    | tail hab hbc ih => exact step_preserves_integrity _ _ hbc ih

/-- Witness for C4: the cascade empties EMP-001's records on the
demonstration state, and the initial state satisfies referential
integrity. -/
theorem employee_delete_cascade_and_integrity_witness :
    listAttendance (removeEmployee demoState4 "EMP-001")
      { employee_id := some "EMP-001" } = [] ∧
    RefIntegrity initState :=
  ⟨employee_delete_cascade_and_integrity.1 demoState4 "EMP-001",
   employee_delete_cascade_and_integrity.2 initState
     Relation.ReflTransGen.refl⟩

/-- Claim C2: every row of `getAttendanceSummary` (one per employee with at
least one record) has `attendance_percentage` = present_days / total_days
× 100; the formula yields 0 when total_days = 0; and an employee with
3 Present and 1 Absent records has percentage 75, displayed by
`formatPercentage` as "75.0%". -/
theorem attendance_percentage_spec :
    (∀ (s : ServiceState) (e : Employee),
      (summaryFor s e).total_days = 0 →
        (summaryFor s e).attendance_percentage = 0) ∧
    (∀ (s : ServiceState) (m : EmployeeAttendanceSummary),
      m ∈ getAttendanceSummary s →
        m.total_days ≠ 0 ∧
        m.attendance_percentage =
          (m.present_days : ℚ) / (m.total_days : ℚ) * 100) ∧
    ((summaryFor demoState4 demoEmp).present_days = 3 ∧
     (summaryFor demoState4 demoEmp).absent_days = 1 ∧
     (summaryFor demoState4 demoEmp).total_days = 4 ∧
     (summaryFor demoState4 demoEmp).attendance_percentage = 75 ∧
     formatPercentage
       ((summaryFor demoState4 demoEmp).attendance_percentage) =
       "75.0%") := by
  have hperc : ∀ (s : ServiceState) (e : Employee),
      (summaryFor s e).attendance_percentage =
        (if ((s.records.filter
            (fun r => r.employee_id == e.employee_id)).length == 0 : Bool)
         then (0 : ℚ)
         else (((s.records.filter
              (fun r => r.employee_id == e.employee_id)).filter
                (fun r => r.status == .present)).length : ℚ) /
            ((s.records.filter
              (fun r => r.employee_id == e.employee_id)).length : ℚ) *
            100) := fun s e => rfl
  refine ⟨?_, ?_, ?_, ?_, ?_, ?_, ?_⟩
  · intro s e h0
    have ht : (summaryFor s e).total_days =
        (s.records.filter
          (fun r => r.employee_id == e.employee_id)).length := rfl
    rw [ht] at h0
    rw [hperc, if_pos]
    exact beq_iff_eq.mpr h0
  · intro s m hm
    rw [getAttendanceSummary, mem_sortBy] at hm
    obtain ⟨e, he, rfl⟩ := List.mem_map.mp hm
    obtain ⟨hee, hany⟩ := List.mem_filter.mp he
    obtain ⟨r, hr, hrid⟩ := List.any_eq_true.mp hany
    have hrmem : r ∈ s.records.filter
        (fun x => x.employee_id == e.employee_id) :=
      List.mem_filter.mpr ⟨hr, hrid⟩
    have hlen : (s.records.filter
        (fun x => x.employee_id == e.employee_id)).length ≠ 0 := by
      intro h0
      rw [List.length_eq_zero] at h0
      rw [h0] at hrmem
      exact List.not_mem_nil r hrmem
    have ht : (summaryFor s e).total_days =
        (s.records.filter
          (fun x => x.employee_id == e.employee_id)).length := rfl
    have hp : (summaryFor s e).present_days =
        ((s.records.filter
          (fun x => x.employee_id == e.employee_id)).filter
            (fun x => x.status == .present)).length := rfl
    refine ⟨by rw [ht]; exact hlen, ?_⟩
    rw [hperc, ht, hp, if_neg]
    exact fun hcon => hlen (beq_iff_eq.mp hcon)
  · decide
  · decide
  · decide
  · have hval : (summaryFor demoState4 demoEmp).attendance_percentage =
        ((3 : ℕ) : ℚ) / ((4 : ℕ) : ℚ) * 100 := rfl
    rw [hval]
    norm_num
  · have h75 : (summaryFor demoState4 demoEmp).attendance_percentage =
        (75 : ℚ) := by
      have hval : (summaryFor demoState4 demoEmp).attendance_percentage =
          ((3 : ℕ) : ℚ) / ((4 : ℕ) : ℚ) * 100 := rfl
      rw [hval]; norm_num
    rw [h75]
    rw [formatPercentage, toFixed1]
    have hfl : ⌊(75 : ℚ) * 10 + 1 / 2⌋ = (750 : ℤ) := by
      rw [Int.floor_eq_iff] <;> norm_num
    rw [hfl]
    decide

/-- Witness for C2: the single summary row of the demonstration state has a
nonzero day count and satisfies the percentage formula. -/
theorem attendance_percentage_spec_witness :
    (summaryFor demoState4 demoEmp).total_days ≠ 0 ∧
    (summaryFor demoState4 demoEmp).attendance_percentage =
      ((summaryFor demoState4 demoEmp).present_days : ℚ) /
        ((summaryFor demoState4 demoEmp).total_days : ℚ) * 100 :=
  attendance_percentage_spec.2.1 demoState4 (summaryFor demoState4 demoEmp)
    (by
      rw [show getAttendanceSummary demoState4 =
          [summaryFor demoState4 demoEmp] from rfl]
      exact List.mem_singleton.mpr rfl)

end HRMS
